import Mathlib

/- Formal model of the credential-validation and dispatch pipeline of the
gastoscompartidos MCP gateway.  The definitions are shallow embeddings of
the JavaScript source: the `APIKeyAuth` class (credential cache and
validation against the identity backend), the Express route handlers of
`StandaloneMCPServer`, `BaseTool.validateParams` / `BaseTool.getSchema`,
and the rate-limiting middleware.  Times are integral milliseconds. -/

namespace GCMS

/-- Result of a successful validation, as cached by `APIKeyAuth`: the
`authData` object literal built in `validateAPIKey` (user id, key id,
scopes, rate-limit tier, insertion timestamp). -/
structure AuthData where
  userId : String
  keyId : String
  scopes : List String
  rateLimitTier : String
  timestamp : Int
deriving Repr, DecidableEq

/-- The credential cache: the `this.cache` JavaScript `Map` of `APIKeyAuth`,
modelled as an insertion-ordered association list from credential to
`AuthData`. -/
abbrev KeyCache := List (String × AuthData)

/-- `Map.get`: the value bound to `k`, if present. -/
def cacheGet (c : KeyCache) (k : String) : Option AuthData :=
  (c.find? (fun kv => kv.1 == k)).map (fun kv => kv.2)

/-- `Map.set`: replace the binding in place when the key is present
(JavaScript Maps keep the original insertion position), append otherwise. -/
def cacheSet (c : KeyCache) (k : String) (v : AuthData) : KeyCache :=
  if (c.find? (fun kv => kv.1 == k)).isSome then
    c.map (fun kv => if kv.1 == k then (k, v) else kv)
  else
    c ++ [(k, v)]

/-- `Map.delete`, the body of `APIKeyAuth.clearCache`. -/
def cacheDelete (c : KeyCache) (k : String) : KeyCache :=
  c.filter (fun kv => !(kv.1 == k))

/-- One interaction with the remote identity endpoint, as observed by the
`axios` call in `validateAPIKey`: a definitive valid verdict carrying the
user data, a definitive invalid verdict, an HTTP error response with a
status code, or a transport failure with no response at all. -/
inductive IdentityResponse where
  | valid (userId keyId : String) (scopes : List String) (tier : String)
  | invalid (reason : String)
  | httpError (status : Nat)
  | networkError
deriving Repr, DecidableEq

/-- Terminal behaviour of one `validateAPIKey` call: return an auth record,
return `null` (invalid key), or throw the
`Backend validation service unavailable` error. -/
inductive ValidateOutcome where
  | ok (a : AuthData)
  | nullResult
  | unavailable
deriving Repr, DecidableEq

/-- Result of running `validateAPIKey`: its terminal behaviour, the cache
state afterwards, and whether the identity endpoint was actually called
(used to distinguish a cache hit from an upstream validation). -/
structure VResult where
  outcome : ValidateOutcome
  cache : KeyCache
  calledUpstream : Bool
deriving Repr, DecidableEq

/-- The part of `validateAPIKey` after a cache miss: POST to the validation
endpoint; on `valid` build and cache the auth record; on `valid:false`
return `null` without caching; in the catch block, a 401 response returns
`null` and anything else throws the unavailable error — neither caches. -/
def validateUncached (cache : KeyCache) (now : Int) (key : String)
    (resp : IdentityResponse) : VResult :=
  match resp with
  | .valid u kid sc tier =>
      let a : AuthData := ⟨u, kid, sc, tier, now⟩
      ⟨.ok a, cacheSet cache key a, true⟩
  | .invalid _ => ⟨.nullResult, cache, true⟩
  | .httpError st =>
      if st == 401 then ⟨.nullResult, cache, true⟩
      else ⟨.unavailable, cache, true⟩
  | .networkError => ⟨.unavailable, cache, true⟩

/-- `APIKeyAuth.validateAPIKey`: return the cached record when it is present
and `now - cached.timestamp < this.cacheTimeout`; otherwise validate
against the backend. -/
def validateAPIKey (cache : KeyCache) (ttl now : Int) (key : String)
    (resp : IdentityResponse) : VResult :=
  match cacheGet cache key with
  | some cached =>
      if now - cached.timestamp < ttl then ⟨.ok cached, cache, false⟩
      else validateUncached cache now key resp
  | none => validateUncached cache now key resp

/-- `APIKeyAuth.cleanupCache`: delete every entry with
`now - data.timestamp > this.cacheTimeout` (note: strictly greater). -/
def cleanupCache (cache : KeyCache) (ttl now : Int) : KeyCache :=
  cache.filter (fun kv => !decide (now - kv.2.timestamp > ttl))

theorem validateUncached_upstream (cache : KeyCache) (now : Int) (key : String)
    (resp : IdentityResponse) : (validateUncached cache now key resp).calledUpstream = true := by
  cases resp with
  | valid u kid sc tier => rfl
  | invalid r => rfl
  | httpError st =>
      simp only [validateUncached]
      split <;> rfl
  | networkError => rfl

/-- C4: a cached entry is consumed as a cache hit only when it is present
and `now - insertedAt < ttl`; an entry whose age is at least `ttl` forces
an upstream validation, independent of any sweep having run. -/
theorem cache_read_only_fresh (cache : KeyCache) (ttl now : Int) (key : String)
    (resp : IdentityResponse) :
    (∀ e, cacheGet cache key = some e → ttl ≤ now - e.timestamp →
      (validateAPIKey cache ttl now key resp).calledUpstream = true) ∧
    ((validateAPIKey cache ttl now key resp).calledUpstream = false →
      ∃ e, cacheGet cache key = some e ∧ now - e.timestamp < ttl ∧
        (validateAPIKey cache ttl now key resp).outcome = ValidateOutcome.ok e) := by
  cases hc : cacheGet cache key with
  | none =>
      refine ⟨fun e he _ => absurd he (by simp), fun hfalse => ?_⟩
      rw [show (validateAPIKey cache ttl now key resp).calledUpstream = true by
        simp only [validateAPIKey, hc]
        exact validateUncached_upstream _ _ _ _] at hfalse
      exact absurd hfalse (by simp)
  | some e0 =>
      by_cases hf : now - e0.timestamp < ttl
      · refine ⟨fun e he hstale => ?_, fun _ => ⟨e0, rfl, hf, ?_⟩⟩
        · cases he
          exact absurd hstale (not_le.mpr hf)
        · simp only [validateAPIKey, hc]
          rw [if_pos hf]
      · refine ⟨fun _ _ _ => ?_, fun hfalse => ?_⟩
        · simp only [validateAPIKey, hc]
          rw [if_neg hf]
          exact validateUncached_upstream _ _ _ _
        · rw [show (validateAPIKey cache ttl now key resp).calledUpstream = true by
            simp only [validateAPIKey, hc]
            rw [if_neg hf]
            exact validateUncached_upstream _ _ _ _] at hfalse
          exact absurd hfalse (by simp)

/-- C4 witness: a concrete stale entry (age 7 at ttl 5) is not served from
the cache. -/
theorem cache_read_only_fresh_witness :
    (validateAPIKey [(("gcp_a"), ⟨"u1", "k1", ["mcp:read"], "basic", 0⟩)]
      5 7 ("gcp_a") IdentityResponse.networkError).calledUpstream = true :=
  (cache_read_only_fresh _ 5 7 _ _).1 ⟨"u1", "k1", ["mcp:read"], "basic", 0⟩
    (by decide) (by decide)

/-- C5: on a definitive invalid verdict from the identity service and no
fresh cache hit, `validateAPIKey` returns `null`, leaves the cache exactly
as it was, and any retry at a later time still goes upstream instead of
hitting the cache. -/
theorem invalid_not_cached (cache : KeyCache) (ttl now : Int) (key reason : String)
    (hmiss : (validateAPIKey cache ttl now key (IdentityResponse.invalid reason)).calledUpstream
      = true) :
    (validateAPIKey cache ttl now key (IdentityResponse.invalid reason)).outcome
        = ValidateOutcome.nullResult ∧
    (validateAPIKey cache ttl now key (IdentityResponse.invalid reason)).cache = cache ∧
    (∀ now' resp', now ≤ now' →
      (validateAPIKey cache ttl now' key resp').calledUpstream = true) := by
  cases hc : cacheGet cache key with
  | none =>
      refine ⟨?_, ?_, fun now' resp' _ => ?_⟩
      · simp only [validateAPIKey, hc, validateUncached]
      · simp only [validateAPIKey, hc, validateUncached]
      · simp only [validateAPIKey, hc]
        exact validateUncached_upstream _ _ _ _
  | some e0 =>
      by_cases hf : now - e0.timestamp < ttl
      · rw [show (validateAPIKey cache ttl now key
            (IdentityResponse.invalid reason)).calledUpstream = false by
          simp only [validateAPIKey, hc]
          rw [if_pos hf]] at hmiss
        exact absurd hmiss (by simp)
      · refine ⟨?_, ?_, fun now' resp' hle => ?_⟩
        · simp only [validateAPIKey, hc]
          rw [if_neg hf]
          rfl
        · simp only [validateAPIKey, hc]
          rw [if_neg hf]
          rfl
        · have hstale : ¬ now' - e0.timestamp < ttl := by omega
          simp only [validateAPIKey, hc]
          rw [if_neg hstale]
          exact validateUncached_upstream _ _ _ _

/-- C5 witness: an uncached credential rejected as revoked is not cached and
an immediate retry still calls the identity service. -/
theorem invalid_not_cached_witness :
    (validateAPIKey [] 300000 0 ("gcp_b") (IdentityResponse.invalid ("revoked"))).outcome
        = ValidateOutcome.nullResult ∧
    (validateAPIKey [] 300000 0 ("gcp_b") (IdentityResponse.invalid ("revoked"))).cache = [] ∧
    (∀ now' resp', (0 : Int) ≤ now' →
      (validateAPIKey [] 300000 now' ("gcp_b") resp').calledUpstream = true) :=
  invalid_not_cached [] 300000 0 ("gcp_b") ("revoked") (by decide)

/-- C7 counterexample: an entry whose age is exactly `ttl` (age 5 at ttl 5,
so `now - insertedAt ≥ ttl`) survives `cleanupCache`, because the source
removes only entries with age strictly greater than `ttl`. -/
theorem cleanup_keeps_entry_at_exact_ttl :
    (5 : Int) - (AuthData.timestamp ⟨"u1", "k1", [], "basic", 0⟩) ≥ 5 ∧
    cleanupCache [(("gcp_a"), ⟨"u1", "k1", [], "basic", 0⟩)] 5 5 =
      [(("gcp_a"), ⟨"u1", "k1", [], "basic", 0⟩)] := by
  constructor
  · decide
  · rfl

/-- C7 amended: one call to `cleanupCache` keeps exactly the entries whose
age satisfies `now - insertedAt ≤ ttl` — it removes every entry with age
strictly greater than `ttl` and none with age at most `ttl` (in particular
an entry of age exactly `ttl` is kept). -/
theorem cleanup_removes_strictly_expired (cache : KeyCache) (ttl now : Int)
    (k : String) (a : AuthData) :
    (k, a) ∈ cleanupCache cache ttl now ↔
      ((k, a) ∈ cache ∧ now - a.timestamp ≤ ttl) := by
  simp only [cleanupCache, List.mem_filter, Bool.not_eq_true', decide_eq_false_iff_not,
    not_lt]

/-- The request headers consulted by `APIKeyAuth.extractAPIKey`: the two
spellings of the authorization header and the two spellings of the
dedicated key header, each possibly absent. -/
structure Headers where
  authorization : Option String := none
  authorizationCap : Option String := none
  xApiKey : Option String := none
  xApiKeyCap : Option String := none
deriving Repr, DecidableEq

/-- JavaScript `a || b` on possibly-absent header strings: the left value
when it is present and truthy (non-empty), otherwise the right value. -/
def jsOr (a b : Option String) : Option String :=
  match a with
  | some s => if s = "" then b else some s
  | none => b

/-- JavaScript `String.prototype.startsWith`, character by character. -/
def strStartsWith (s pre : String) : Bool :=
  pre.data.isPrefixOf s.data

/-- JavaScript `String.prototype.substring(n)`: drop the first `n`
characters. -/
def strDrop (s : String) (n : Nat) : String :=
  ⟨s.data.drop n⟩

/-- The `x-api-key` fallback at the end of `extractAPIKey`: return the
dedicated header when truthy, else `null`. -/
def tryDedicatedHeader (h : Headers) : Option String :=
  match jsOr h.xApiKey h.xApiKeyCap with
  | some s => if s = "" then none else some s
  | none => none

/-- `APIKeyAuth.extractAPIKey`: take the authorization header (either
spelling); when truthy, strip a `Bearer ` scheme, or accept a raw
`gcp_`-prefixed key; otherwise fall back to the dedicated key header;
`null` when nothing applies. -/
def extractAPIKey (h : Headers) : Option String :=
  match jsOr h.authorization h.authorizationCap with
  | some a =>
      if a = "" then tryDedicatedHeader h
      else if strStartsWith a ("Bearer ") then some (strDrop a 7)
      else if strStartsWith a ("gcp_") then some a
      else tryDedicatedHeader h
  | none => tryDedicatedHeader h

/-- Spec-side formulation for C9: the effective (truthy) authorization
header value. -/
def effectiveAuthHeader (h : Headers) : Option String :=
  match jsOr h.authorization h.authorizationCap with
  | some a => if a = "" then none else some a
  | none => none

/-- Spec-side strategy 1: authorization header with the `Bearer ` scheme,
the scheme stripped. -/
def specBearerStrategy (h : Headers) : Option String :=
  match effectiveAuthHeader h with
  | some a => if strStartsWith a ("Bearer ") then some (strDrop a 7) else none
  | none => none

/-- Spec-side strategy 2: authorization header that is a raw
`gcp_`-prefixed key, returned unchanged. -/
def specRawKeyStrategy (h : Headers) : Option String :=
  match effectiveAuthHeader h with
  | some a => if strStartsWith a ("gcp_") then some a else none
  | none => none

/-- Spec-side strategy 3: the dedicated `X-API-Key` header. -/
def specDedicatedStrategy (h : Headers) : Option String :=
  match jsOr h.xApiKey h.xApiKeyCap with
  | some s => if s = "" then none else some s
  | none => none

/-- Spec-side combinator: try an ordered list of extraction strategies,
first match wins. -/
def firstMatch : List (Headers → Option String) → Headers → Option String
  | [], _ => none
  | s :: rest, h =>
      match s h with
      | some v => some v
      | none => firstMatch rest h

theorem extract_unfold (h : Headers) :
    extractAPIKey h =
      match effectiveAuthHeader h with
      | some a =>
          if strStartsWith a ("Bearer ") then some (strDrop a 7)
          else if strStartsWith a ("gcp_") then some a
          else tryDedicatedHeader h
      | none => tryDedicatedHeader h := by
  simp only [extractAPIKey, effectiveAuthHeader]
  cases jsOr h.authorization h.authorizationCap with
  | none => rfl
  | some a =>
      by_cases he : a = ""
      · simp [he]
      · simp [he]

theorem firstMatch_three (s1 s2 s3 : Headers → Option String) (h : Headers) :
    firstMatch [s1, s2, s3] h =
      match s1 h with
      | some v => some v
      | none =>
          match s2 h with
          | some v => some v
          | none => s3 h := by
  simp only [firstMatch]
  cases s1 h <;> cases s2 h <;> cases s3 h <;> rfl

/-- `StandaloneMCPServer.authenticateRequest`: extract the credential; when
it is falsy return `null`; otherwise validate it; a validation throw is
caught and also surfaces as `null`.  Returns the auth data and the cache
state after the request. -/
def authenticateRequest (h : Headers) (cache : KeyCache) (ttl now : Int)
    (resp : IdentityResponse) : Option AuthData × KeyCache :=
  match extractAPIKey h with
  | none => (none, cache)
  | some k =>
      if k = "" then (none, cache)
      else
        match validateAPIKey cache ttl now k resp with
        | ⟨.ok a, c1, _⟩ => (some a, c1)
        | ⟨.nullResult, c1, _⟩ => (none, c1)
        | ⟨.unavailable, c1, _⟩ => (none, c1)

/-- The guard shared by every protected route handler: `401` when
`authenticateRequest` produced no auth data, `200` otherwise. -/
def protectedStatus (auth : Option AuthData) : Nat :=
  match auth with
  | none => 401
  | some _ => 200

/-- The `ToolError` class of the base tool: message, HTTP status code and
optional details payload. -/
structure ToolError where
  message : String
  statusCode : Nat
  details : Option String := none
deriving Repr, DecidableEq

/-- Outcome of `tool.execute` as observed by the route handler: a resolved
result value or a thrown error. -/
inductive ToolRun where
  | success (result : String)
  | failure (e : ToolError)
deriving Repr, DecidableEq

/-- The `POST /mcp/tools/:toolName` handler: authenticate (401 on failure),
resolve the tool (404 when unknown), run it, and on a thrown error answer
with `error.statusCode || 500`.  Returns the HTTP status and the
credential-cache state after the request; the handler itself never touches
the cache. -/
def postToolRoute (h : Headers) (cache : KeyCache) (ttl now : Int)
    (resp : IdentityResponse) (toolExists : Bool) (run : ToolRun) :
    Nat × KeyCache :=
  match authenticateRequest h cache ttl now resp with
  | (none, c1) => (401, c1)
  | (some _, c1) =>
      if !toolExists then (404, c1)
      else
        match run with
        | .success _ => (200, c1)
        | .failure e => (if e.statusCode = 0 then 500 else e.statusCode, c1)

/-- C9: credential extraction is exactly the first match of the fixed
strategy order (Bearer-prefixed authorization with the scheme stripped,
raw `gcp_`-prefixed authorization, dedicated key header); it is absent
exactly when no strategy matches; and on absence every protected endpoint
authenticates to `null` and terminates with HTTP 401. -/
theorem extraction_priority (h : Headers) :
    extractAPIKey h =
      firstMatch [specBearerStrategy, specRawKeyStrategy, specDedicatedStrategy] h ∧
    (extractAPIKey h = none ↔
      specBearerStrategy h = none ∧ specRawKeyStrategy h = none ∧
        specDedicatedStrategy h = none) ∧
    (extractAPIKey h = none → ∀ cache ttl now resp,
      (authenticateRequest h cache ttl now resp).1 = none ∧
      protectedStatus (authenticateRequest h cache ttl now resp).1 = 401 ∧
      ∀ toolExists run,
        (postToolRoute h cache ttl now resp toolExists run).1 = 401) := by
  have hded : specDedicatedStrategy h = tryDedicatedHeader h := rfl
  have heq : extractAPIKey h =
      firstMatch [specBearerStrategy, specRawKeyStrategy, specDedicatedStrategy] h := by
    rw [extract_unfold, firstMatch_three]
    simp only [specBearerStrategy, specRawKeyStrategy, hded]
    cases effectiveAuthHeader h with
    | none => rfl
    | some a =>
        by_cases hB : strStartsWith a ("Bearer ") = true
        · simp [hB]
        · by_cases hG : strStartsWith a ("gcp_") = true
          · simp [hB, hG]
          · simp [hB, hG]
  refine ⟨heq, ?_, ?_⟩
  · rw [heq, firstMatch_three]
    cases specBearerStrategy h <;> cases specRawKeyStrategy h <;>
      cases specDedicatedStrategy h <;> simp
  · intro hnone cache ttl now resp
    have hauth : authenticateRequest h cache ttl now resp = (none, cache) := by
      simp only [authenticateRequest, hnone]
    refine ⟨by rw [hauth], by rw [hauth]; rfl, fun toolExists run => ?_⟩
    simp only [postToolRoute, hauth]

/-- C9 witness: a request with no credential headers at all extracts
nothing and is answered 401 on the protected tool route. -/
theorem extraction_priority_witness :
    (authenticateRequest ⟨none, none, none, none⟩ [] 300000 0
        IdentityResponse.networkError).1 = none ∧
    protectedStatus (authenticateRequest ⟨none, none, none, none⟩ [] 300000 0
        IdentityResponse.networkError).1 = 401 ∧
    ∀ toolExists run,
      (postToolRoute ⟨none, none, none, none⟩ [] 300000 0
          IdentityResponse.networkError toolExists run).1 = 401 :=
  (extraction_priority ⟨none, none, none, none⟩).2.2 (by rfl) [] 300000 0
    IdentityResponse.networkError

/-- C2 counterexample: the credential `gcp_k`, presented as a Bearer token
and not cached, is answered HTTP 401 when the identity service is
unreachable (network error) — not 503 — exactly the same status as a
definitive invalid-credential verdict, so the two failure kinds do not
produce distinct status codes. -/
theorem unavailable_not_503_cex :
    (postToolRoute ⟨some ("Bearer gcp_k"), none, none, none⟩ [] 300000 0
        IdentityResponse.networkError true (ToolRun.success ("ok"))).1 = 401 ∧
    (postToolRoute ⟨some ("Bearer gcp_k"), none, none, none⟩ [] 300000 0
        (IdentityResponse.invalid ("revoked")) true (ToolRun.success ("ok"))).1 = 401 := by
  exact ⟨rfl, rfl⟩

/-- C2 amended: when credential validation fails because the identity
service is unreachable or returns an indeterminate response, the dispatcher
answers HTTP 401 (`authentication_required`), the same terminal status as a
definitive invalid-credential verdict; the two failure kinds are
distinguished only in the logs, not in the HTTP status. -/
theorem auth_failures_both_401 (h : Headers) (cache : KeyCache) (ttl now : Int)
    (k reason : String) (st : Nat)
    (hx : extractAPIKey h = some k) (hk : ¬ k = "")
    (hc : cacheGet cache k = none) (h5xx : ¬ st = 401) :
    ∀ toolExists run,
      (postToolRoute h cache ttl now IdentityResponse.networkError toolExists run).1 = 401 ∧
      (postToolRoute h cache ttl now (IdentityResponse.httpError st) toolExists run).1 = 401 ∧
      (postToolRoute h cache ttl now (IdentityResponse.invalid reason) toolExists run).1
        = 401 := by
  intro toolExists run
  have hnet : validateAPIKey cache ttl now k IdentityResponse.networkError =
      ⟨.unavailable, cache, true⟩ := by
    simp only [validateAPIKey, hc]
    rfl
  have h5 : validateAPIKey cache ttl now k (IdentityResponse.httpError st) =
      ⟨.unavailable, cache, true⟩ := by
    simp only [validateAPIKey, hc, validateUncached]
    rw [if_neg (by simpa using h5xx)]
  have hinv : validateAPIKey cache ttl now k (IdentityResponse.invalid reason) =
      ⟨.nullResult, cache, true⟩ := by
    simp only [validateAPIKey, hc]
    rfl
  refine ⟨?_, ?_, ?_⟩ <;>
    simp only [postToolRoute, authenticateRequest, hx, if_neg hk, hnet, h5, hinv]

/-- C2 witness: concrete uncached Bearer credential, identity service down
(network error), then a 500 from the identity service, then a definitive
invalid verdict — all three answered 401 on the tool route. -/
theorem auth_failures_both_401_witness :
    (postToolRoute ⟨some ("Bearer gcp_k"), none, none, none⟩ [] 300000 0
        IdentityResponse.networkError true (ToolRun.success ("ok"))).1 = 401 ∧
    (postToolRoute ⟨some ("Bearer gcp_k"), none, none, none⟩ [] 300000 0
        (IdentityResponse.httpError 500) true (ToolRun.success ("ok"))).1 = 401 ∧
    (postToolRoute ⟨some ("Bearer gcp_k"), none, none, none⟩ [] 300000 0
        (IdentityResponse.invalid ("revoked")) true (ToolRun.success ("ok"))).1 = 401 :=
  auth_failures_both_401 ⟨some ("Bearer gcp_k"), none, none, none⟩ [] 300000 0
    ("gcp_k") ("revoked") 500 (by rfl) (by decide) (by rfl) (by decide) true
    (ToolRun.success ("ok"))

/-- C3 counterexample: with a fresh cached record for `gcp_k`, a tool
failure carrying backend status 401 (a revoked credential) is answered with
status 401 but leaves the cached record in place — the route handler never
invokes `clearCache`, so the claimed invalidation does not happen. -/
theorem revocation_no_invalidate_cex :
    (postToolRoute ⟨some ("Bearer gcp_k"), none, none, none⟩
        [(("gcp_k"), ⟨"u1", "k1", ["mcp:read"], "basic", 0⟩)] 300000 0
        IdentityResponse.networkError true
        (ToolRun.failure ⟨"Autenticacion fallida", 401, none⟩)).1 = 401 ∧
    cacheGet (postToolRoute ⟨some ("Bearer gcp_k"), none, none, none⟩
        [(("gcp_k"), ⟨"u1", "k1", ["mcp:read"], "basic", 0⟩)] 300000 0
        IdentityResponse.networkError true
        (ToolRun.failure ⟨"Autenticacion fallida", 401, none⟩)).2 ("gcp_k") =
      some ⟨"u1", "k1", ["mcp:read"], "basic", 0⟩ := by
  exact ⟨rfl, rfl⟩

/-- C3 amended: on a tool failure the dispatcher only maps the tool's
status code (`error.statusCode || 500`) onto the response; it performs no
cache invalidation, so for every fresh cached credential and every tool
failure — including a backend 401 revealing revocation — the cache after
the request still contains the stale record, which disappears only through
TTL expiry on read or `cleanupCache`. -/
theorem tool_failure_keeps_cache (h : Headers) (cache : KeyCache) (ttl now : Int)
    (resp : IdentityResponse) (k : String) (a : AuthData) (e : ToolError)
    (hx : extractAPIKey h = some k) (hk : ¬ k = "")
    (hc : cacheGet cache k = some a) (hf : now - a.timestamp < ttl) :
    postToolRoute h cache ttl now resp true (ToolRun.failure e) =
      ((if e.statusCode = 0 then 500 else e.statusCode), cache) ∧
    cacheGet (postToolRoute h cache ttl now resp true (ToolRun.failure e)).2 k
      = some a := by
  have hv : validateAPIKey cache ttl now k resp = ⟨.ok a, cache, false⟩ := by
    simp only [validateAPIKey, hc]
    rw [if_pos hf]
  have hroute : postToolRoute h cache ttl now resp true (ToolRun.failure e) =
      ((if e.statusCode = 0 then 500 else e.statusCode), cache) := by
    simp only [postToolRoute, authenticateRequest, hx, if_neg hk, hv]
    rfl
  exact ⟨hroute, by rw [hroute]; exact hc⟩

/-- C3 witness: concrete fresh cached credential, tool failure with backend
status 401 — response status 401 and the record still cached. -/
theorem tool_failure_keeps_cache_witness :
    postToolRoute ⟨some ("Bearer gcp_k"), none, none, none⟩
        [(("gcp_k"), ⟨"u1", "k1", ["mcp:read"], "basic", 0⟩)] 300000 0
        (IdentityResponse.invalid ("unused")) true
        (ToolRun.failure ⟨"Autenticacion fallida", 401, none⟩) =
      (401, [(("gcp_k"), ⟨"u1", "k1", ["mcp:read"], "basic", 0⟩)]) ∧
    cacheGet (postToolRoute ⟨some ("Bearer gcp_k"), none, none, none⟩
        [(("gcp_k"), ⟨"u1", "k1", ["mcp:read"], "basic", 0⟩)] 300000 0
        (IdentityResponse.invalid ("unused")) true
        (ToolRun.failure ⟨"Autenticacion fallida", 401, none⟩)).2 ("gcp_k") =
      some ⟨"u1", "k1", ["mcp:read"], "basic", 0⟩ := by
  simpa using tool_failure_keeps_cache ⟨some ("Bearer gcp_k"), none, none, none⟩
    [(("gcp_k"), ⟨"u1", "k1", ["mcp:read"], "basic", 0⟩)] 300000 0
    (IdentityResponse.invalid ("unused")) ("gcp_k")
    ⟨"u1", "k1", ["mcp:read"], "basic", 0⟩ ⟨"Autenticacion fallida", 401, none⟩
    (by rfl) (by decide) (by rfl) (by decide)

/-- A JavaScript value as tested for truthiness by
`BaseTool.validateParams` (`!params[field]`). -/
inductive JsVal where
  | undefined
  | null
  | boolean (b : Bool)
  | num (n : Int)
  | str (s : String)
deriving Repr, DecidableEq

/-- JavaScript truthiness of the values above: `undefined`, `null`,
`false`, `0` and the empty string are falsy. -/
def JsVal.truthy : JsVal → Bool
  | .undefined => false
  | .null => false
  | .boolean b => b
  | .num n => !(n == 0)
  | .str s => !(s == "")

/-- A `params` object: property lookup yields `undefined` when the field is
absent. -/
abbrev ToolParams := List (String × JsVal)

def getParam (p : ToolParams) (f : String) : JsVal :=
  match (p.find? (fun kv => kv.1 == f)).map (fun kv => kv.2) with
  | some v => v
  | none => .undefined

/-- The `requiredFields.filter(field => !params[field])` list computed by
`validateParams`: the required fields whose value is absent or falsy. -/
def missingFields (p : ToolParams) (required : List String) : List String :=
  required.filter (fun f => !(getParam p f).truthy)

/-- `BaseTool.validateParams`: throw a `ToolError` with status 400 naming
the missing fields when any required field is absent or falsy, return
normally otherwise. -/
def validateParams (p : ToolParams) (required : List String) : Except ToolError Unit :=
  let missing := required.filter (fun f => !(getParam p f).truthy)
  if missing.length > 0 then
    Except.error ⟨"Par√°metros requeridos faltantes: " ++
      String.intercalate (", ") missing, 400, none⟩
  else
    Except.ok ()

/-- C10: `validateParams` returns normally exactly when every required
field is truthy; otherwise it throws a `ToolError` with status 400 whose
message names exactly the required fields whose value is absent or falsy
(comma-joined, in order); a field that is present but bound to a falsy
value counts as missing. -/
theorem validateParams_reports_falsy (p : ToolParams) (required : List String) :
    (validateParams p required = Except.ok () ↔ missingFields p required = []) ∧
    (∀ e, validateParams p required = Except.error e →
      e.statusCode = 400 ∧ e.details = none ∧
      e.message = "Par√°metros requeridos faltantes: " ++
        String.intercalate (", ") (missingFields p required)) ∧
    (∀ f, f ∈ missingFields p required ↔
      (f ∈ required ∧ (getParam p f).truthy = false)) := by
  have hunf : validateParams p required =
      (if (missingFields p required).length > 0 then
        Except.error ⟨"Par√°metros requeridos faltantes: " ++
          String.intercalate (", ") (missingFields p required), 400, none⟩
      else Except.ok ()) := rfl
  by_cases hm : (missingFields p required).length > 0
  · rw [hunf, if_pos hm]
    refine ⟨⟨fun h => absurd h (by simp), fun h => ?_⟩, fun e he => ?_, fun f => ?_⟩
    · rw [h] at hm
      simp at hm
    · cases he
      exact ⟨rfl, rfl, rfl⟩
    · simp [missingFields, List.mem_filter, Bool.not_eq_true']
  · rw [hunf, if_neg hm]
    refine ⟨⟨fun _ => ?_, fun _ => rfl⟩, fun e he => absurd he (by simp), fun f => ?_⟩
    · have hz : (missingFields p required).length = 0 := by omega
      simpa using List.length_eq_zero.mp hz
    · simp [missingFields, List.mem_filter, Bool.not_eq_true']

/-- C10 witness: `sheet_id` supplied but bound to the empty string (falsy)
is reported as missing, with status 400 and the exact message. -/
theorem validateParams_reports_falsy_witness :
    ToolError.statusCode ⟨"Par√°metros requeridos faltantes: sheet_id", 400, none⟩ = 400 ∧
    ToolError.details ⟨"Par√°metros requeridos faltantes: sheet_id", 400, none⟩ = none ∧
    ToolError.message ⟨"Par√°metros requeridos faltantes: sheet_id", 400, none⟩ =
      "Par√°metros requeridos faltantes: " ++ String.intercalate (", ")
        (missingFields [(("sheet_id"), JsVal.str (""))] [("sheet_id")]) :=
  (validateParams_reports_falsy [(("sheet_id"), JsVal.str (""))] [("sheet_id")]).2.1
    ⟨"Par√°metros requeridos faltantes: sheet_id", 400, none⟩ (by rfl)

/-- One property of a tool's declared input schema (the object literals
returned by each tool's `getInputSchema`): type, description, and the
optional enum, default, minimum and maximum annotations. -/
structure PropSchema where
  type : String
  description : String
  enum : Option (List String)
  default : Option JsVal
  minimum : Option Int
  maximum : Option Int
deriving Repr, DecidableEq

/-- A tool's declared input schema: JSON-schema type, named properties in
declaration order, and the required-field list. -/
structure InputSchema where
  type : String
  properties : List (String × PropSchema)
  required : List String
deriving Repr, DecidableEq

/-- A registered tool: the `name` and `description` fields set by the
`BaseTool` constructor plus the subclass's `getInputSchema` result. -/
structure ToolDef where
  name : String
  description : String
  inputSchema : InputSchema
deriving Repr, DecidableEq

/-- The object literal returned by `BaseTool.getSchema`. -/
structure ToolSchema where
  name : String
  description : String
  inputSchema : InputSchema
deriving Repr, DecidableEq

/-- `BaseTool.getSchema`: `{ name, description, inputSchema: this.getInputSchema() }`. -/
def getSchema (t : ToolDef) : ToolSchema :=
  ⟨t.name, t.description, t.inputSchema⟩

/-- The `ListMySheetsool` registered at startup, with the field values of
its constructor and `getInputSchema` (CONFIG.TOOLS.MAX_LIMIT = 100 and
CONFIG.TOOLS.DEFAULT_LIMIT = 20, the configuration defaults, interpolated
into the limit property). -/
def listMySheetsTool : ToolDef :=
  ⟨"list_my_sheets",
   "Obtener todas las hojas de gastos del usuario. Incluye hojas propias, compartidas y donde participa. Útil para ver un resumen de todas las hojas disponibles y sus estados.",
   ⟨"object",
    [(("filter"),
      ⟨"string",
       "Filtrar hojas por tipo: all (todas), owned (propias), shared (compartidas), archived (archivadas), favorites (favoritas)",
       some ["all", "owned", "shared", "archived", "favorites"],
       some (JsVal.str ("all")), none, none⟩),
     (("limit"),
      ⟨"number",
       "Número máximo de hojas a retornar (máximo 100)",
       none, some (JsVal.num 20), some 1, some 100⟩)],
    []⟩⟩

/-- The `GetSheetSummaryTool` registered at startup, with the field values
of its constructor and `getInputSchema`. -/
def getSheetSummaryTool : ToolDef :=
  ⟨"get_sheet_summary",
   "Obtener resumen detallado de una hoja de gastos específica. Incluye información general, balance actual, participantes, últimos movimientos y próximas acciones recomendadas.",
   ⟨"object",
    [(("sheet_id"),
      ⟨"string", "ID único de la hoja de gastos a consultar", none, none, none, none⟩),
     (("include_suggestions"),
      ⟨"boolean", "Incluir sugerencias de próximas acciones", none,
       some (JsVal.boolean true), none, none⟩)],
    ["sheet_id"]⟩⟩

/-- The `this.tools` Map built in the `StandaloneMCPServer` constructor, in
registration order. -/
def serverTools : List (String × ToolDef) :=
  [(("list_my_sheets"), listMySheetsTool), (("get_sheet_summary"), getSheetSummaryTool)]

/-- `Array.from(this.tools.values()).map(tool => tool.getSchema())` — the
`tools` array served by both `GET /mcp/schema` and `GET /mcp/tools`. -/
def mcpToolsArray (reg : List (String × ToolDef)) : List ToolSchema :=
  reg.map (fun kv => getSchema kv.2)

/-- C8: the tools array served by `GET /mcp/schema` and `GET /mcp/tools`
has one entry per registered tool, in registration order, and the `i`-th
entry carries exactly the `i`-th registered tool's name, description and
input schema. -/
theorem tool_list_round_trip (i : Nat) (h : i < serverTools.length) :
    (mcpToolsArray serverTools).length = serverTools.length ∧
    ∃ s, (mcpToolsArray serverTools).get? i = some s ∧
      s.name = ((serverTools.get ⟨i, h⟩).2).name ∧
      s.description = ((serverTools.get ⟨i, h⟩).2).description ∧
      s.inputSchema = ((serverTools.get ⟨i, h⟩).2).inputSchema := by
  have h2 : i < 2 := by simpa [serverTools] using h
  interval_cases i
  · exact ⟨rfl, ⟨getSchema listMySheetsTool, rfl, rfl, rfl, rfl⟩⟩
  · exact ⟨rfl, ⟨getSchema getSheetSummaryTool, rfl, rfl, rfl, rfl⟩⟩

/-- C8 witness: the first served schema is the first registered tool, field
by field. -/
theorem tool_list_round_trip_witness :
    (mcpToolsArray serverTools).length = serverTools.length ∧
    ∃ s, (mcpToolsArray serverTools).get? 0 = some s ∧
      s.name = ((serverTools.get ⟨0, by decide⟩).2).name ∧
      s.description = ((serverTools.get ⟨0, by decide⟩).2).description ∧
      s.inputSchema = ((serverTools.get ⟨0, by decide⟩).2).inputSchema :=
  tool_list_round_trip 0 (by decide)

/-- Rate-limit configuration: the `points` and `duration` handed to
`RateLimiterMemory` in the server constructor (CONFIG.RATE_LIMIT defaults:
100 requests per 60000 ms window). -/
structure RLConfig where
  maxPoints : Nat
  windowMs : Nat
deriving Repr, DecidableEq

/-- One client's rate bucket: consumed points in the current window and the
window-start timestamp. -/
structure RateBucket where
  points : Nat
  windowStart : Nat
deriving Repr, DecidableEq

/-- Result of `rateLimiter.consume`: resolve with the updated bucket, or
reject with the bucket and `msBeforeNext`, the remaining milliseconds until
the window resets. -/
inductive ConsumeResult where
  | allowed (b : RateBucket)
  | rejected (b : RateBucket) (msBeforeNext : Nat)
deriving Repr, DecidableEq

/-- Modelled from the spec: the consume operation of the external
`rate-limiter-flexible` `RateLimiterMemory` is not part of this
repository; following the spec's fixed-window description, the bucket is
reset to empty once its window has elapsed, consuming one point succeeds
while the budget `maxPoints` is not exceeded, and otherwise the call is
rejected with the remaining time until the window resets. -/
def consume (cfg : RLConfig) (b : Option RateBucket) (now : Nat) : ConsumeResult :=
  let cur : RateBucket :=
    match b with
    | none => ⟨0, now⟩
    | some bk => if bk.windowStart + cfg.windowMs ≤ now then ⟨0, now⟩ else bk
  if cur.points + 1 ≤ cfg.maxPoints then
    ConsumeResult.allowed ⟨cur.points + 1, cur.windowStart⟩
  else
    ConsumeResult.rejected cur (cur.windowStart + cfg.windowMs - now)

/-- The bucket of one client after a sequence of requests at the given
times (requests above budget are rejected and leave the bucket as it is). -/
def bucketAfter (cfg : RLConfig) (b : Option RateBucket) : List Nat → Option RateBucket
  | [] => b
  | t :: ts =>
      match consume cfg b t with
      | ConsumeResult.allowed bk => bucketAfter cfg (some bk) ts
      | ConsumeResult.rejected bk _ => bucketAfter cfg (some bk) ts

/-- `Math.round(ms / 1000)` for nonnegative integral `ms`. -/
def jsRound (ms : Nat) : Nat := (2 * ms + 1000) / 2000

/-- Outcome of the rate-limiting middleware for one request: pass the
request on, or answer it immediately. -/
inductive MWResult where
  | pass (b : RateBucket)
  | limited (status : Nat) (retryAfter : Nat)
deriving Repr, DecidableEq

/-- The rate-limiting middleware of `setupMiddleware`: consume one point
and call `next()`, or answer HTTP 429 with
`retryAfter = Math.round(rejRes.msBeforeNext / 1000)`. -/
def rateLimitMiddleware (cfg : RLConfig) (b : Option RateBucket) (now : Nat) : MWResult :=
  match consume cfg b now with
  | ConsumeResult.allowed bk => MWResult.pass bk
  | ConsumeResult.rejected _ ms => MWResult.limited 429 (jsRound ms)

/-- The default CONFIG.RATE_LIMIT: 100 points per 60-second window. -/
def cfgDefault : RLConfig := ⟨100, 60000⟩

theorem bucketAfter_within (cfg : RLConfig) :
    ∀ (ts : List Nat) (k t1 : Nat),
      (∀ t ∈ ts, t1 ≤ t ∧ t < t1 + cfg.windowMs) → k + ts.length ≤ cfg.maxPoints →
      bucketAfter cfg (some ⟨k, t1⟩) ts = some ⟨k + ts.length, t1⟩ := by
  intro ts
  induction ts with
  | nil => intro k t1 _ _; simp [bucketAfter]
  | cons t ts ih =>
      intro k t1 hin hbud
      have ht := hin t (by simp)
      have hnoreset : ¬ t1 + cfg.windowMs ≤ t := by omega
      have hok : k + 1 ≤ cfg.maxPoints := by
        have := hbud
        simp [List.length_cons] at this
        omega
      have hstep : consume cfg (some ⟨k, t1⟩) t = ConsumeResult.allowed ⟨k + 1, t1⟩ := by
        simp only [consume]
        rw [if_neg hnoreset, if_pos hok]
      simp only [bucketAfter, hstep]
      rw [ih (k + 1) t1 (fun s hs => hin s (by simp [hs])) (by simp at hbud ⊢; omega)]
      have e1 : k + 1 + ts.length = k + (t :: ts).length := by simp; omega
      rw [e1]

/-- C6 counterexample: with the default configuration, 100 requests from
one client at time 0 and a 101st request at 59600 ms (still inside the
60-second window) are answered 429 whose `retryAfter` is
`Math.round(400 / 1000) = 0` — not a positive integer. -/
theorem rate_limit_retry_after_zero_cex :
    rateLimitMiddleware cfgDefault
        (bucketAfter cfgDefault none (List.replicate 100 0)) 59600 =
      MWResult.limited 429 0 := by
  decide

/-- C6 amended (spec-modelled rate limiter): for a client whose first
request is at `t1` and who issues `maxPoints` requests inside the window
`[t1, t1 + windowMs)`, a further request at time `t` inside the same
window is rejected with HTTP 429 carrying
`retryAfter = Math.round((t1 + windowMs - t) / 1000)`, a nonnegative
integer at most `windowDuration` in seconds (60 with the defaults);
`retryAfter` is not always positive — it rounds to 0 when fewer than
500 ms remain in the window. -/
theorem rate_limit_101st_rejected (ts : List Nat) (t1 t : Nat)
    (hts : ∀ s ∈ ts, t1 ≤ s ∧ s < t1 + cfgDefault.windowMs)
    (hlen : ts.length = 99) (ht1 : t1 ≤ t) (ht2 : t < t1 + cfgDefault.windowMs) :
    rateLimitMiddleware cfgDefault (bucketAfter cfgDefault none (t1 :: ts)) t =
      MWResult.limited 429 (jsRound (t1 + cfgDefault.windowMs - t)) ∧
    jsRound (t1 + cfgDefault.windowMs - t) ≤ 60 := by
  have hfirst : consume cfgDefault none t1 = ConsumeResult.allowed ⟨1, t1⟩ := by
    simp only [consume]
    rfl
  have hfill : bucketAfter cfgDefault (some ⟨1, t1⟩) ts = some ⟨100, t1⟩ := by
    have := bucketAfter_within cfgDefault ts 1 t1 hts (by rw [hlen]; decide)
    rw [this, hlen]
  have hbkt : bucketAfter cfgDefault none (t1 :: ts) = some ⟨100, t1⟩ := by
    simp only [bucketAfter, hfirst]
    exact hfill
  have hnoreset : ¬ t1 + cfgDefault.windowMs ≤ t := by omega
  have hrej : consume cfgDefault (some ⟨100, t1⟩) t =
      ConsumeResult.rejected ⟨100, t1⟩ (t1 + cfgDefault.windowMs - t) := by
    simp only [consume]
    rw [if_neg hnoreset]
    rfl
  refine ⟨?_, ?_⟩
  · rw [rateLimitMiddleware, hbkt, hrej]
  · have hw : cfgDefault.windowMs = 60000 := rfl
    rw [hw] at ht2 ⊢
    have h2 : 2 * (t1 + 60000 - t) + 1000 ≤ 121000 := by omega
    calc jsRound (t1 + 60000 - t)
        ≤ 121000 / 2000 := Nat.div_le_div_right h2
      _ = 60 := by norm_num

/-- C6 witness: 100 requests at time 0 then one more at time 0 — rejected
with 429 and `retryAfter = 60 ≤ 60`. -/
theorem rate_limit_101st_rejected_witness :
    rateLimitMiddleware cfgDefault
        (bucketAfter cfgDefault none (0 :: List.replicate 99 0)) 0 =
      MWResult.limited 429 (jsRound (0 + cfgDefault.windowMs - 0)) ∧
    jsRound (0 + cfgDefault.windowMs - 0) ≤ 60 :=
  rate_limit_101st_rejected (List.replicate 99 0) 0 0 (by decide) (by decide)
    (by decide) (by decide)

/-- Phase counts of `N` concurrent `validateAPIKey` callers presenting one
shared credential: the cache, the number of identity-service calls issued
so far, and how many callers have not yet run their cache check, have an
upstream call in flight (between the cache check and the awaited POST
resuming), or have finished.  Because the callers are identical, counts
capture every interleaving. -/
structure SFState where
  cache : KeyCache
  upstream : Nat
  ready : Nat
  awaiting : Nat
  finished : Nat
deriving Repr, DecidableEq

/-- One scheduler step: `check` runs some not-yet-started caller through
the synchronous prefix of `validateAPIKey` (the cache lookup, then issuing
the upstream POST on a miss or stale entry — a fresh hit finishes
immediately); `complete` resumes some in-flight caller with the identity
service's response, applying the cache write of `validateUncached`. -/
inductive SFMove where
  | check
  | complete
deriving Repr, DecidableEq

def sfStep (ttl now : Int) (key : String) (resp : IdentityResponse)
    (s : SFState) : SFMove → SFState
  | SFMove.check =>
      if s.ready = 0 then s
      else
        match cacheGet s.cache key with
        | some c =>
            if now - c.timestamp < ttl then
              ⟨s.cache, s.upstream, s.ready - 1, s.awaiting, s.finished + 1⟩
            else
              ⟨s.cache, s.upstream + 1, s.ready - 1, s.awaiting + 1, s.finished⟩
        | none => ⟨s.cache, s.upstream + 1, s.ready - 1, s.awaiting + 1, s.finished⟩
  | SFMove.complete =>
      if s.awaiting = 0 then s
      else
        ⟨(validateUncached s.cache now key resp).cache, s.upstream,
          s.ready, s.awaiting - 1, s.finished + 1⟩

/-- Run a scheduled interleaving of the concurrent callers. -/
def sfRun (ttl now : Int) (key : String) (resp : IdentityResponse) :
    SFState → List SFMove → SFState
  | s, [] => s
  | s, mv :: rest => sfRun ttl now key resp (sfStep ttl now key resp s mv) rest

/-- `N` concurrent requests with an empty cache: nobody started, no
upstream call issued yet. -/
def sfInit (n : Nat) : SFState := ⟨[], 0, n, 0, 0⟩

/-- C1 counterexample: two concurrent requests for the same uncached
credential, both of which run their cache check before either validation
completes (the schedule check-check-complete-complete), issue two upstream
calls to the identity service — not exactly one. -/
theorem single_flight_cex :
    (sfRun 300000 0 ("gcp_k") (IdentityResponse.valid ("u1") ("k1") ["mcp:read"] ("basic"))
        (sfInit 2)
        [SFMove.check, SFMove.check, SFMove.complete, SFMove.complete]).upstream = 2 ∧
    ¬ (sfRun 300000 0 ("gcp_k") (IdentityResponse.valid ("u1") ("k1") ["mcp:read"] ("basic"))
        (sfInit 2)
        [SFMove.check, SFMove.check, SFMove.complete, SFMove.complete]).upstream = 1 := by
  exact ⟨rfl, by decide⟩

theorem sfRun_checks (ttl now : Int) (key : String) (resp : IdentityResponse) :
    ∀ (m : Nat) (c : KeyCache) (up r a f : Nat), cacheGet c key = none → m ≤ r →
      sfRun ttl now key resp ⟨c, up, r, a, f⟩ (List.replicate m SFMove.check) =
        ⟨c, up + m, r - m, a + m, f⟩ := by
  intro m
  induction m with
  | zero => intro c up r a f _ _; simp [sfRun]
  | succ n ih =>
      intro c up r a f h hm
      have hr : ¬ r = 0 := by omega
      have hstep : sfStep ttl now key resp ⟨c, up, r, a, f⟩ SFMove.check =
          ⟨c, up + 1, r - 1, a + 1, f⟩ := by
        simp only [sfStep, h]
        rw [if_neg hr]
      rw [List.replicate_succ]
      simp only [sfRun, hstep]
      rw [ih c (up + 1) (r - 1) (a + 1) f h (by omega)]
      have e1 : up + 1 + n = up + (n + 1) := by omega
      have e2 : r - 1 - n = r - (n + 1) := by omega
      have e3 : a + 1 + n = a + (n + 1) := by omega
      rw [e1, e2, e3]

/-- C1 amended: there is no single-flight de-duplication in
`validateAPIKey` — when `N` concurrent requests present the same uncached
credential and each runs its cache check before any validation completes,
each issues its own upstream call, so the identity service receives
exactly `N` calls, not 1; only a request whose cache check happens after
another's successful completion shares that outcome (through the cache). -/
theorem no_single_flight (N : Nat) (ttl now : Int) (key : String)
    (resp : IdentityResponse) :
    (sfRun ttl now key resp (sfInit N) (List.replicate N SFMove.check)).upstream = N := by
  have h := sfRun_checks ttl now key resp N [] 0 N 0 0 rfl (le_refl N)
  rw [sfInit, h]
  simp

end GCMS
